import Mathlib

/-!
PostgreSQL provider: the `postgresql_query` and `postgresql_tables` data sources.

A shallow embedding of `data_source_postgresql_query.go` and
`data_source_postgresql_tables.go`.

* Go strings are Lean `String`s, `[]interface{}` of strings are `List String`.
* `*schema.ResourceData` is the record `ResourceData`; an output attribute that
  was never `Set` is `none`.  A handler takes the record and returns the record
  it leaves behind (Go mutates it in place).
* The database collaborators (`startTransaction`, `txn.Query`, `rows.Columns`,
  `rows.ColumnTypes`, `rows.Next`, `rows.Scan`) are given by an explicit
  environment (`DBConnection`, `Txn`, `Rows`) that fixes what each call answers.
* A handler also returns the trace of the calls it made on these collaborators;
  a `defer` is an effect appended after the effects of the rest of the body.
-/

namespace Postgresql

/-! ## Go values used by the handlers -/

/-- A Go `error`, identified by its message. -/
abbrev GoError := String

/-- How a handler call ends: `return nil`, `return err`, or a run-time panic. -/
inductive Ret where
  | nil
  | error (err : GoError)
  | panicked
  deriving DecidableEq, Repr

/-- One element of the `columns` attribute: `{"name": ..., "type": ...}`. -/
structure ColumnDescriptor where
  name : String
  type : String
  deriving DecidableEq, Repr

/-- One element of the `tables` attribute: `{"schema_name": ..., "table_name": ...}`. -/
structure TableEntry where
  schema_name : String
  table_name : String
  deriving DecidableEq, Repr

/-- A Go `map[string]interface{}` whose values are strings, as the list of its
    cells; `mapSet` keeps the keys pairwise distinct. -/
abbrev RowMap := List (String × String)

/-- Go `m[k] = v`: overwrite the cell of key `k` when there is one, add a cell
    otherwise. -/
def mapSet : RowMap → String → String → RowMap
  | [], k, v => [(k, v)]
  | (k', v') :: rest, k, v =>
    if k' = k then (k, v) :: rest else (k', v') :: mapSet rest k v

/-- Go `m[k]` with the presence flag. -/
def mapGet : RowMap → String → Option String
  | [], _ => none
  | (k', v') :: rest, k => if k' = k then some v' else mapGet rest k

/-- The keys of a map. -/
def mapKeys (m : RowMap) : List String := m.map Prod.fst

/-- The attribute bag of a data source (`*schema.ResourceData`): the inputs of
    both data sources and their computed outputs. -/
structure ResourceData where
  database : String
  query : String
  args : Option (List String)
  schemas : List String
  table_types : List String
  like_any_patterns : List String
  like_all_patterns : List String
  not_like_all_patterns : List String
  regex_pattern : String
  columns : Option (List ColumnDescriptor)
  rows : Option (List RowMap)
  tables : Option (List TableEntry)
  id : Option String
  deriving DecidableEq, Repr

/-! ## The database collaborators -/

/-- A `*sql.ColumnType`, reduced to what the handler reads of it. -/
structure ColumnType where
  DatabaseTypeName : String
  deriving DecidableEq, Repr

/-- A result cursor (`*sql.Rows`) as the handler observes it: the answers of
    `Columns()` and `ColumnTypes()`, and one entry per row the cursor delivers
    (`Next()` is true once per entry, then false), holding what the driver hands
    to `Scan` for that row or the error `Scan` fails with. -/
structure Rows (Value : Type) where
  columns : Except GoError (List String)
  columnTypes : Except GoError (List ColumnType)
  scans : List (Except GoError (List Value))

/-- A transaction (`*sql.Tx`): what `txn.Query(statement, args...)` answers. -/
structure Txn (Value : Type) where
  Query : String → List String → Except GoError (Rows Value)

/-- Modelled from the spec: `startTransaction` is not among the sources; the
    spec's Transactional Executor "opens a transaction scoped to that database"
    and returns the error of opening it unmodified.  The connection fixes, per
    database name, whether opening succeeds and with which transaction. -/
structure DBConnection (Value : Type) where
  startTransaction : String → Except GoError (Txn Value)

/-- The calls a handler makes on its collaborators, in the order it makes them. -/
inductive Effect where
  | startTransaction (database : String)
  | query (statement : String) (args : List String)
  | columns
  | columnTypes
  | next
  | scan
  | close
  | rollback
  | commit
  deriving DecidableEq, Repr

/-- Modelled from the spec: `deferredRollback` is not among the sources; the
    spec says "the transaction is always rolled back on scope exit" and that
    rollback, not commit, is the terminal action.  The effects of one call. -/
def deferredRollback : List Effect := [Effect.rollback]

/-- What a handler call leaves behind: the attribute bag, the returned value
    and the trace of effects. -/
structure ReadResult where
  d : ResourceData
  ret : Ret
  trace : List Effect
  deriving DecidableEq, Repr

/-- `rows.Scan(dest...)` of `database/sql` with `n` destinations of type
    `*interface{}`: fails with the driver's error, fails when the row does not
    have `n` values, and otherwise stores the row's values in the holders. -/
def Scan {Value : Type} (n : Nat) (row : Except GoError (List Value)) :
    Except GoError (List Value) :=
  match row with
  | .error e => .error e
  | .ok vals =>
    if vals.length = n then .ok vals
    else .error ("sql: expected " ++ toString vals.length ++
      " destination arguments in Scan, not " ++ toString n)

/-! ## `data_source_postgresql_query.go` -/

/-- `generateDataSourceQueryID`. -/
def generateDataSourceQueryID (databaseName query : String) : String :=
  databaseName ++ "_" ++ query

/-- Lines 91-97: `output_columns[i] = {"name": col, "type": columnTypes[i].DatabaseTypeName()}`
    for every `i, col := range columns`.  `columnTypes[i]` panics when
    `columnTypes` is shorter than `columns` (`none`). -/
def outputColumns (columns : List String) (columnTypes : List ColumnType) :
    Option (List ColumnDescriptor) :=
  if columns.length ≤ columnTypes.length then
    some (List.zipWith (fun col t => ColumnDescriptor.mk col t.DatabaseTypeName)
      columns columnTypes)
  else none

/-- Lines 112-115: `result := make(map...)` then `result[col] = fmt.Sprint(rowdata[i])`
    for every `i, col := range columns`; `rowdata` has `len(columns)` holders. -/
def rowResult {Value : Type} (Sprint : Value → String) (columns : List String)
    (rowdata : List Value) : RowMap :=
  (columns.zip rowdata).foldl (fun result p => mapSet result p.1 (Sprint p.2)) []

/-- The loop of lines 113-115 from any map built so far; `rowResult` starts it
    from the empty map. -/
def rowFold {Value : Type} (Sprint : Value → String) (acc : RowMap)
    (cells : List (String × Value)) : RowMap :=
  cells.foldl (fun result p => mapSet result p.1 (Sprint p.2)) acc

/-- Lines 106-117: the `for rows.Next()` loop, from the rows still to be
    delivered and the `output_rows` built so far.  Returns the final
    `output_rows` or the wrapped scan error, with the calls made. -/
def scanLoop {Value : Type} (Sprint : Value → String) (columns : List String) :
    List (Except GoError (List Value)) → List RowMap →
    Except GoError (List RowMap) × List Effect
  | [], output_rows => (.ok output_rows, [Effect.next])
  | row :: rest, output_rows =>
    match Scan columns.length row with
    | .error err =>
      (.error ("could not scan output for query: " ++ err), [Effect.next, Effect.scan])
    | .ok rowdata =>
      let r := scanLoop Sprint columns rest (output_rows ++ [rowResult Sprint columns rowdata])
      (r.1, [Effect.next, Effect.scan] ++ r.2)

/-- Lines 81-122 of `dataSourcePostgreSQLQueryRead`: the body after
    `defer rows.Close()`. -/
def queryReadCursor {Value : Type} (Sprint : Value → String) (d : ResourceData)
    (database query : String) (rows : Rows Value) : ReadResult :=
  match rows.columns with
  | .error err => ⟨d, .error err, [Effect.columns]⟩
  | .ok columns =>
    match rows.columnTypes with
    | .error err => ⟨d, .error err, [Effect.columns, Effect.columnTypes]⟩
    | .ok columnTypes =>
      match outputColumns columns columnTypes with
      | none => ⟨d, .panicked, [Effect.columns, Effect.columnTypes]⟩
      | some output_columns =>
        let d1 := { d with columns := some output_columns }
        match scanLoop Sprint columns rows.scans [] with
        | (.error err, t) => ⟨d1, .error err, [Effect.columns, Effect.columnTypes] ++ t⟩
        | (.ok output_rows, t) =>
          ⟨{ d1 with rows := some output_rows,
                     id := some (generateDataSourceQueryID database query) },
            .nil, [Effect.columns, Effect.columnTypes] ++ t⟩

/-- Lines 68-73: `args` is `d.Get("args")` as a list when it is not nil, the
    empty list otherwise. -/
def queryArgs (d : ResourceData) : List String :=
  match d.args with
  | none => []
  | some rawargs => rawargs

/-- Lines 67-79 and the deferred `rows.Close()`: the body after
    `defer deferredRollback(txn)`. -/
def queryReadTxn {Value : Type} (Sprint : Value → String) (d : ResourceData)
    (database : String) (txn : Txn Value) : ReadResult :=
  let query := d.query
  let args := queryArgs d
  match txn.Query query args with
  | .error err => ⟨d, .error err, [Effect.query query args]⟩
  | .ok rows =>
    let r := queryReadCursor Sprint d database query rows
    ⟨r.d, r.ret, [Effect.query query args] ++ r.trace ++ [Effect.close]⟩

/-- `dataSourcePostgreSQLQueryRead`. -/
def dataSourcePostgreSQLQueryRead {Value : Type} (Sprint : Value → String)
    (db : DBConnection Value) (d : ResourceData) : ReadResult :=
  let database := d.database
  match db.startTransaction database with
  | .error err => ⟨d, .error err, [Effect.startTransaction database]⟩
  | .ok txn =>
    let r := queryReadTxn Sprint d database txn
    ⟨r.d, r.ret, [Effect.startTransaction database] ++ r.trace ++ deferredRollback⟩

/-! ## `data_source_postgresql_tables.go` -/

/-- The constant `tableQuery` (a raw string literal: newline and tab included). -/
def tableQuery : String :=
  "\n\tSELECT schemaname, tablename\n\tFROM pg_catalog.pg_tables\n\tWHERE schemaname NOT IN ('pg_catalog', 'information_schema')\n\t"

/-- The constant `tableSchemaKeyword`. -/
def tableSchemaKeyword : String := "schemaname"

/-- The constant `tablePatternMatchingTarget`. -/
def tablePatternMatchingTarget : String := "tablename"

/-- Modelled from the spec: the constant `queryConcatKeywordAnd` is not among the
    sources; the spec names the join operator of this domain, `AND`. -/
def queryConcatKeywordAnd : String := "AND"

/-- Modelled from the spec: the constant `queryArrayKeywordAny` is not among the
    sources; the spec speaks of ANY pattern-array semantics. -/
def queryArrayKeywordAny : String := "ANY"

/-- Modelled from the spec: the constant `queryArrayKeywordAll` is not among the
    sources; the spec speaks of ALL pattern-array semantics. -/
def queryArrayKeywordAll : String := "ALL"

/-- Go `strings.Join`. -/
def stringsJoin : List String → String → String
  | [], _ => ""
  | [a], _ => a
  | a :: b :: rest, sep => a ++ sep ++ stringsJoin (b :: rest) sep

/-- Modelled from the spec: `generatePatternArrayString` is not among the
    sources; it renders an ordered list of literal values or patterns as one
    array operand under the given ANY / ALL keyword.  Each value is written as a
    quoted SQL literal, the values are separated by commas. -/
def generatePatternArrayString (patterns : List String) (queryArrayKeyword : String) :
    String :=
  queryArrayKeyword ++ " (array[" ++
    stringsJoin (patterns.map (fun p => "'" ++ p ++ "'")) "," ++ "])"

/-- Modelled from the spec: the step shared by the filter helpers, which are not
    among the sources.  A present filter appends one fragment, "combined with
    previous clauses via the current join operator", and leaves the join
    operator at `AND` for the fragments that follow. -/
def appendFragment (query queryConcatKeyword fragment : String) : String × String :=
  (query ++ " " ++ queryConcatKeyword ++ " " ++ fragment, queryConcatKeywordAnd)

/-- Modelled from the spec: `applyEqualsAnyFilteringToQuery` is not among the
    sources.  Spec, `equals-any`: "empty/absent input → no fragment.  Non-empty
    list of literal values → fragment restricting the column to membership in
    that set, combined with previous clauses via the current join operator."
    Returns the statement and the join keyword it leaves in `*queryConcatKeyword`. -/
def applyEqualsAnyFilteringToQuery (query queryConcatKeyword objectKeyword : String)
    (objects : List String) : String × String :=
  if objects.length > 0 then
    appendFragment query queryConcatKeyword
      (objectKeyword ++ " = " ++ generatePatternArrayString objects queryArrayKeywordAny)
  else (query, queryConcatKeyword)

/-- Modelled from the spec: `applyOptionalPatternMatchingToQuery` is not among
    the sources.  Spec: `like-any` / `like-all` / `not-like-all` "empty/absent →
    no fragment; non-empty → a fragment using the corresponding ANY/ALL/
    negated-ALL pattern-array semantics against the target column"; `regex`
    "absent or empty string → no fragment; otherwise a fragment using
    regular-expression match against the target column"; in that order. -/
def applyOptionalPatternMatchingToQuery (query patternMatchingTarget queryConcatKeyword : String)
    (d : ResourceData) : String × String :=
  let s0 : String × String := (query, queryConcatKeyword)
  let s1 := if d.like_any_patterns.length > 0 then
      appendFragment s0.1 s0.2 (patternMatchingTarget ++ " LIKE " ++
        generatePatternArrayString d.like_any_patterns queryArrayKeywordAny)
    else s0
  let s2 := if d.like_all_patterns.length > 0 then
      appendFragment s1.1 s1.2 (patternMatchingTarget ++ " LIKE " ++
        generatePatternArrayString d.like_all_patterns queryArrayKeywordAll)
    else s1
  let s3 := if d.not_like_all_patterns.length > 0 then
      appendFragment s2.1 s2.2 (patternMatchingTarget ++ " NOT LIKE " ++
        generatePatternArrayString d.not_like_all_patterns queryArrayKeywordAll)
    else s2
  if d.regex_pattern ≠ "" then
    appendFragment s3.1 s3.2 (patternMatchingTarget ++ " ~ '" ++ d.regex_pattern ++ "'")
  else s3

/-- The two filter helpers `dataSourcePostgreSQLTablesRead` calls, which are
    not among the sources.  Each takes the statement so far and the value of
    `*queryConcatKeyword`, and returns the new statement and the value it leaves
    in `*queryConcatKeyword`. -/
structure FilterHelpers where
  applyEqualsAnyFilteringToQuery : String → String → String → List String → String × String
  applyOptionalPatternMatchingToQuery : String → String → String → ResourceData → String × String

/-- The helpers as modelled from the spec. -/
def specHelpers : FilterHelpers :=
  ⟨Postgresql.applyEqualsAnyFilteringToQuery, Postgresql.applyOptionalPatternMatchingToQuery⟩

/-- Lines 100-105 of `dataSourcePostgreSQLTablesRead`: the statement handed to
    `txn.Query`. -/
def tablesStatement (H : FilterHelpers) (d : ResourceData) : String :=
  let query := tableQuery
  let queryConcatKeyword := queryConcatKeywordAnd
  let s1 := H.applyEqualsAnyFilteringToQuery query queryConcatKeyword tableSchemaKeyword d.schemas
  let s2 := H.applyOptionalPatternMatchingToQuery s1.1 tablePatternMatchingTarget s1.2 d
  s2.1 ++ " ORDER BY schemaname, tablename"

/-- Lines 134-144: `generateDataSourceTablesID`. -/
def generateDataSourceTablesID (d : ResourceData) (databaseName : String) : String :=
  stringsJoin [
    databaseName,
    generatePatternArrayString d.schemas queryArrayKeywordAny,
    generatePatternArrayString d.table_types queryArrayKeywordAny,
    generatePatternArrayString d.like_any_patterns queryArrayKeywordAny,
    generatePatternArrayString d.like_all_patterns queryArrayKeywordAll,
    generatePatternArrayString d.not_like_all_patterns queryArrayKeywordAll,
    d.regex_pattern] "_"

/-- `rows.Scan(&schema_name, &table_name)` of `database/sql`: two destinations
    of type `*string`; `convertAssign` is the library's conversion of a driver
    value to a string, which can fail. -/
def ScanTable {Value : Type} (convertAssign : Value → Except GoError String)
    (row : Except GoError (List Value)) : Except GoError (String × String) :=
  match row with
  | .error e => .error e
  | .ok [v1, v2] =>
    match convertAssign v1 with
    | .error e => .error e
    | .ok schema_name =>
      match convertAssign v2 with
      | .error e => .error e
      | .ok table_name => .ok (schema_name, table_name)
  | .ok vals => .error ("sql: expected " ++ toString vals.length ++
      " destination arguments in Scan, not 2")

/-- Lines 113-126: the `for rows.Next()` loop of the tables handler. -/
def scanTablesLoop {Value : Type} (convertAssign : Value → Except GoError String) :
    List (Except GoError (List Value)) → List TableEntry →
    Except GoError (List TableEntry) × List Effect
  | [], tables => (.ok tables, [Effect.next])
  | row :: rest, tables =>
    match ScanTable convertAssign row with
    | .error err =>
      (.error ("could not scan table output for database: " ++ err),
        [Effect.next, Effect.scan])
    | .ok (schema_name, table_name) =>
      let r := scanTablesLoop convertAssign rest (tables ++ [⟨schema_name, table_name⟩])
      (r.1, [Effect.next, Effect.scan] ++ r.2)

/-- Lines 113-131 of `dataSourcePostgreSQLTablesRead`: the body after
    `defer rows.Close()`. -/
def tablesReadCursor {Value : Type} (convertAssign : Value → Except GoError String)
    (d : ResourceData) (database : String) (rows : Rows Value) : ReadResult :=
  match scanTablesLoop convertAssign rows.scans [] with
  | (.error err, t) => ⟨d, .error err, t⟩
  | (.ok tables, t) =>
    let d1 := { d with tables := some tables }
    ⟨{ d1 with id := some (generateDataSourceTablesID d1 database) }, .nil, t⟩

/-- Lines 100-111 and the deferred `rows.Close()`: the body after
    `defer deferredRollback(txn)`. -/
def tablesReadTxn {Value : Type} (H : FilterHelpers)
    (convertAssign : Value → Except GoError String)
    (d : ResourceData) (database : String) (txn : Txn Value) : ReadResult :=
  let query := tablesStatement H d
  match txn.Query query [] with
  | .error err => ⟨d, .error err, [Effect.query query []]⟩
  | .ok rows =>
    let r := tablesReadCursor convertAssign d database rows
    ⟨r.d, r.ret, [Effect.query query []] ++ r.trace ++ [Effect.close]⟩

/-- `dataSourcePostgreSQLTablesRead`. -/
def dataSourcePostgreSQLTablesRead {Value : Type} (H : FilterHelpers)
    (convertAssign : Value → Except GoError String)
    (db : DBConnection Value) (d : ResourceData) : ReadResult :=
  let database := d.database
  match db.startTransaction database with
  | .error err => ⟨d, .error err, [Effect.startTransaction database]⟩
  | .ok txn =>
    let r := tablesReadTxn H convertAssign d database txn
    ⟨r.d, r.ret, [Effect.startTransaction database] ++ r.trace ++ deferredRollback⟩

/-! ## Measures used by the statements -/

/-- Whether the characters `pat` stand at the head of the second list. -/
def startsWithChars : List Char → List Char → Bool
  | [], _ => true
  | _ :: _, [] => false
  | p :: ps, c :: cs => decide (p = c) && startsWithChars ps cs

/-- The number of positions of a text at which `pat` occurs. -/
def countChars (pat : List Char) : List Char → Nat
  | [] => 0
  | c :: cs => (if startsWithChars pat (c :: cs) then 1 else 0) + countChars pat cs

/-- The number of occurrences of the keyword `kw` in the statement `s`. -/
def keywordCount (kw s : String) : Nat := countChars kw.data s.data

/-- Whether the text `sub` occurs in `s`. -/
def containsText (s sub : String) : Bool := decide (0 < keywordCount sub s)

/-- The values of the filters that put a fragment in the statement, in the
    order the handler applies them. -/
def filterValues (d : ResourceData) : List String :=
  d.schemas ++ d.like_any_patterns ++ d.like_all_patterns ++ d.not_like_all_patterns ++
    [d.regex_pattern]

/-- The fragments of the filters that are present, in the order the spec lists
    the five filter kinds: `equals-any` on the schema column, then `like-any`,
    `like-all`, `not-like-all` and `regex` on the table-name column. -/
def filterFragments (d : ResourceData) : List String :=
  (if d.schemas ≠ [] then
    [tableSchemaKeyword ++ " = " ++ generatePatternArrayString d.schemas queryArrayKeywordAny]
   else []) ++
  (if d.like_any_patterns ≠ [] then
    [tablePatternMatchingTarget ++ " LIKE " ++
      generatePatternArrayString d.like_any_patterns queryArrayKeywordAny]
   else []) ++
  (if d.like_all_patterns ≠ [] then
    [tablePatternMatchingTarget ++ " LIKE " ++
      generatePatternArrayString d.like_all_patterns queryArrayKeywordAll]
   else []) ++
  (if d.not_like_all_patterns ≠ [] then
    [tablePatternMatchingTarget ++ " NOT LIKE " ++
      generatePatternArrayString d.not_like_all_patterns queryArrayKeywordAll]
   else []) ++
  (if d.regex_pattern ≠ "" then
    [tablePatternMatchingTarget ++ " ~ '" ++ d.regex_pattern ++ "'"]
   else [])

/-- The number of the five optional filters that are present. -/
def presentFilters (d : ResourceData) : Nat :=
  (if d.schemas ≠ [] then 1 else 0) + (if d.like_any_patterns ≠ [] then 1 else 0) +
  (if d.like_all_patterns ≠ [] then 1 else 0) +
  (if d.not_like_all_patterns ≠ [] then 1 else 0) + (if d.regex_pattern ≠ "" then 1 else 0)

/-! ## Concrete values for the worked scenarios -/

/-- Driver values of the scenarios: an integer, a text, SQL NULL. -/
inductive SqlValue where
  | int (n : Int)
  | text (s : String)
  | null
  deriving DecidableEq, Repr

/-- Go `fmt.Sprint` on these values. -/
def Sprint : SqlValue → String
  | .int n => toString n
  | .text s => s
  | .null => "<nil>"

/-- An attribute bag with the given `database`, `query` and `args`, every other
    attribute empty and no output set. -/
def queryInputs (database query : String) (args : Option (List String)) : ResourceData :=
  ⟨database, query, args, [], [], [], [], [], "", none, none, none, none⟩

/-- An attribute bag of the tables data source with the given filter inputs
    and no output set. -/
def tablesInputs (database : String)
    (schemas table_types like_any like_all not_like_all : List String) (regex_pattern : String) :
    ResourceData :=
  ⟨database, "", none, schemas, table_types, like_any, like_all, not_like_all,
    regex_pattern, none, none, none, none⟩

/-- A connection whose every transaction answers every statement with `rows`. -/
def connectionReturning {Value : Type} (rows : Rows Value) : DBConnection Value :=
  ⟨fun _ => .ok ⟨fun _ _ => .ok rows⟩⟩

/-! ## Lemmas on strings -/

theorem string_append_right_cancel {a b c : String} (h : a ++ c = b ++ c) : a = b := by
  have h1 := congrArg String.data h
  simp only [String.data_append] at h1
  exact String.ext (List.append_cancel_right h1)

theorem string_append_left_cancel {a b c : String} (h : a ++ b = a ++ c) : b = c := by
  have h1 := congrArg String.data h
  simp only [String.data_append] at h1
  exact String.ext (List.append_cancel_left h1)

/-! ## The identifier of the query data source -/

/-- C3: `generateDataSourceQueryID` changes when the database alone changes,
    changes when the query alone changes, and equal parameters give an equal
    identifier. -/
theorem generateDataSourceQueryID_one_parameter :
    (∀ q d1 d2 : String, d1 ≠ d2 →
      generateDataSourceQueryID d1 q ≠ generateDataSourceQueryID d2 q) ∧
    (∀ d q1 q2 : String, q1 ≠ q2 →
      generateDataSourceQueryID d q1 ≠ generateDataSourceQueryID d q2) ∧
    (∀ d1 d2 q1 q2 : String, d1 = d2 → q1 = q2 →
      generateDataSourceQueryID d1 q1 = generateDataSourceQueryID d2 q2) := by
  refine ⟨?_, ?_, ?_⟩
  · intro q d1 d2 hne h
    unfold generateDataSourceQueryID at h
    exact hne (string_append_right_cancel (string_append_right_cancel h))
  · intro d q1 q2 hne h
    unfold generateDataSourceQueryID at h
    exact hne (string_append_left_cancel h)
  · intro d1 d2 q1 q2 hd hq
    rw [hd, hq]

/-- C3 at concrete parameters: two databases with one query, two queries with
    one database, and the same pair twice. -/
theorem generateDataSourceQueryID_one_parameter_witness :
    generateDataSourceQueryID "db1" "SELECT 1" ≠ generateDataSourceQueryID "db2" "SELECT 1" ∧
    generateDataSourceQueryID "db1" "SELECT 1" ≠ generateDataSourceQueryID "db1" "SELECT 2" ∧
    generateDataSourceQueryID "db1" "SELECT 1" = generateDataSourceQueryID "db1" "SELECT 1" :=
  ⟨generateDataSourceQueryID_one_parameter.1 "SELECT 1" "db1" "db2" (by decide),
   generateDataSourceQueryID_one_parameter.2.1 "db1" "SELECT 1" "SELECT 2" (by decide),
   generateDataSourceQueryID_one_parameter.2.2 "db1" "db1" "SELECT 1" "SELECT 1" rfl rfl⟩

/-- C10: two distinct parameter pairs, `("a_b", "c")` and `("a", "b_c")`, get
    the same identifier, so `generateDataSourceQueryID` is not injective on pairs. -/
theorem generateDataSourceQueryID_collision :
    (("a_b", "c") : String × String) ≠ ("a", "b_c") ∧
    generateDataSourceQueryID "a_b" "c" = generateDataSourceQueryID "a" "b_c" ∧
    ¬ Function.Injective (fun p : String × String => generateDataSourceQueryID p.1 p.2) := by
  refine ⟨by decide, by decide, ?_⟩
  intro hinj
  have h : (("a_b", "c") : String × String) = ("a", "b_c") := hinj (by decide)
  exact absurd h (by decide)

/-! ## Lemmas on row maps -/

theorem mapSet_of_not_mem (m : RowMap) (k v : String) (h : k ∉ mapKeys m) :
    mapSet m k v = m ++ [(k, v)] := by
  induction m with
  | nil => rfl
  | cons p rest ih =>
    obtain ⟨k', v'⟩ := p
    have hk : ¬ k' = k := fun e => h (by simp [mapKeys, e])
    have hr : k ∉ mapKeys rest := fun e => h (by
      simp only [mapKeys, List.map_cons, List.mem_cons] at e ⊢
      exact Or.inr e)
    simp [mapSet, hk, ih hr]

theorem mapKeys_mapSet_of_mem (m : RowMap) (k v : String) (h : k ∈ mapKeys m) :
    mapKeys (mapSet m k v) = mapKeys m := by
  induction m with
  | nil => simp [mapKeys] at h
  | cons p rest ih =>
    obtain ⟨k', v'⟩ := p
    by_cases hk : k' = k
    · simp [mapSet, hk, mapKeys]
    · have hr : k ∈ mapKeys rest := by
        simp only [mapKeys, List.map_cons, List.mem_cons] at h ⊢
        rcases h with h | h
        · exact absurd h.symm hk
        · exact h
      have := ih hr
      simp only [mapKeys] at this
      simp [mapSet, hk, mapKeys, this]

theorem rowFold_nodup {Value : Type} (Sprint : Value → String)
    (cells : List (String × Value)) :
    ∀ acc : RowMap, (cells.map Prod.fst).Nodup →
      (∀ k ∈ cells.map Prod.fst, k ∉ mapKeys acc) →
      rowFold Sprint acc cells = acc ++ cells.map (fun p => (p.1, Sprint p.2)) := by
  induction cells with
  | nil => intro acc _ _; simp [rowFold]
  | cons c rest ih =>
    intro acc hnd hdis
    have hc : c.1 ∉ mapKeys acc := hdis c.1 (by simp)
    rw [List.map_cons, List.nodup_cons] at hnd
    have step : rowFold Sprint acc (c :: rest)
        = rowFold Sprint (acc ++ [(c.1, Sprint c.2)]) rest := by
      simp [rowFold, mapSet_of_not_mem acc c.1 (Sprint c.2) hc]
    rw [step, ih _ hnd.2]
    · simp
    · intro k hk hmem
      simp only [mapKeys, List.map_append, List.map_cons, List.map_nil, List.mem_append,
        List.mem_singleton] at hmem
      rcases hmem with hmem | hmem
      · exact hdis k (by simp only [List.map_cons, List.mem_cons]; exact Or.inr hk)
          (by simpa [mapKeys] using hmem)
      · exact hnd.1 (hmem ▸ hk)

theorem rowFold_keys {Value : Type} (Sprint : Value → String)
    (cells : List (String × Value)) :
    ∀ acc : RowMap, (mapKeys acc).Nodup →
      (mapKeys (rowFold Sprint acc cells)).Nodup ∧
      ∀ k, k ∈ mapKeys (rowFold Sprint acc cells) ↔ k ∈ mapKeys acc ∨ k ∈ cells.map Prod.fst := by
  induction cells with
  | nil => intro acc h; simp [rowFold, h]
  | cons c rest ih =>
    intro acc hnd
    have step : rowFold Sprint acc (c :: rest)
        = rowFold Sprint (mapSet acc c.1 (Sprint c.2)) rest := by
      simp [rowFold]
    by_cases hc : c.1 ∈ mapKeys acc
    · have hk := mapKeys_mapSet_of_mem acc c.1 (Sprint c.2) hc
      have := ih (mapSet acc c.1 (Sprint c.2)) (by rw [hk]; exact hnd)
      rw [step]
      refine ⟨this.1, fun k => ?_⟩
      rw [this.2 k, hk]
      simp only [List.map_cons, List.mem_cons]
      constructor
      · rintro (h | h)
        · exact Or.inl h
        · exact Or.inr (Or.inr h)
      · rintro (h | h | h)
        · exact Or.inl h
        · exact Or.inl (h ▸ hc)
        · exact Or.inr h
    · have hs := mapSet_of_not_mem acc c.1 (Sprint c.2) hc
      have hk : mapKeys (mapSet acc c.1 (Sprint c.2)) = mapKeys acc ++ [c.1] := by
        rw [hs]; simp [mapKeys]
      have hnd2 : (mapKeys (mapSet acc c.1 (Sprint c.2))).Nodup := by
        rw [hk]
        exact List.Nodup.append hnd (List.nodup_singleton _) (by
          intro a ha hb
          rw [List.mem_singleton] at hb
          exact hc (hb ▸ ha))
      have := ih (mapSet acc c.1 (Sprint c.2)) hnd2
      rw [step]
      refine ⟨this.1, fun k => ?_⟩
      rw [this.2 k, hk]
      simp only [List.map_cons, List.mem_cons, List.mem_append, List.mem_singleton]
      tauto

theorem rowResult_eq_rowFold {Value : Type} (Sprint : Value → String)
    (columns : List String) (rowdata : List Value) :
    rowResult Sprint columns rowdata = rowFold Sprint [] (columns.zip rowdata) := rfl

theorem map_fst_zip_of_length {Value : Type} (columns : List String) (rowdata : List Value)
    (h : rowdata.length = columns.length) :
    (columns.zip rowdata).map Prod.fst = columns := by
  induction columns generalizing rowdata with
  | nil => simp
  | cons c cs ih =>
    cases rowdata with
    | nil => simp at h
    | cons v vs =>
      simp only [List.length_cons, Nat.add_right_cancel_iff] at h
      simp [ih vs h]

/-- With pairwise-distinct column names the row map is the column names paired,
    in order, with the rendered values. -/
theorem rowResult_nodup {Value : Type} (Sprint : Value → String)
    (columns : List String) (rowdata : List Value)
    (hnd : columns.Nodup) (hlen : rowdata.length = columns.length) :
    rowResult Sprint columns rowdata = columns.zip (rowdata.map Sprint) := by
  rw [rowResult_eq_rowFold, rowFold_nodup Sprint _ []]
  · simp only [List.nil_append]
    induction columns generalizing rowdata with
    | nil => simp
    | cons c cs ih =>
      cases rowdata with
      | nil => simp at hlen
      | cons v vs =>
        simp only [List.length_cons, Nat.add_right_cancel_iff] at hlen
        rw [List.nodup_cons] at hnd
        simp [ih vs hnd.2 hlen]
  · rw [map_fst_zip_of_length columns rowdata hlen]; exact hnd
  · intro k _; simp [mapKeys]

/-- The number of cells of a row map is the number of distinct column names. -/
theorem rowResult_length {Value : Type} (Sprint : Value → String)
    (columns : List String) (rowdata : List Value)
    (hlen : rowdata.length = columns.length) :
    (rowResult Sprint columns rowdata).length = columns.dedup.length := by
  have h := rowFold_keys Sprint (columns.zip rowdata) [] (by simp [mapKeys])
  rw [← rowResult_eq_rowFold, map_fst_zip_of_length columns rowdata hlen] at h
  have hlenk : (rowResult Sprint columns rowdata).length
      = (mapKeys (rowResult Sprint columns rowdata)).length := by simp [mapKeys]
  rw [hlenk, ← List.toFinset_card_of_nodup h.1, ← List.card_toFinset]
  congr 1
  ext k
  simp only [List.mem_toFinset]
  rw [h.2 k]
  simp [mapKeys]

theorem mapGet_zip (ws : List String) :
    ∀ (columns : List String), columns.Nodup → ws.length = columns.length →
      ∀ (i : Nat) (hi : i < columns.length) (hw : i < ws.length),
        mapGet (columns.zip ws) columns[i] = some ws[i] := by
  induction ws with
  | nil => intro columns _ _ i _ hw; simp at hw
  | cons w rest ih =>
    intro columns hnd hlen i hi hw
    cases columns with
    | nil => simp at hi
    | cons c cs =>
      rw [List.nodup_cons] at hnd
      cases i with
      | zero => simp [mapGet]
      | succ j =>
        have hj : j < cs.length := by simpa using hi
        have hne : ¬ c = cs[j] := fun e => hnd.1 (e ▸ List.getElem_mem _)
        simp only [List.zip_cons_cons, mapGet, List.getElem_cons_succ, hne, if_false]
        exact ih cs hnd.2 (by simpa using hlen) j hj (by simpa using hw)

theorem mapGet_zip_none (columns ws : List String) (k : String) (h : k ∉ columns) :
    mapGet (columns.zip ws) k = none := by
  induction columns generalizing ws with
  | nil => simp [mapGet]
  | cons c cs ih =>
    cases ws with
    | nil => simp [mapGet]
    | cons w rest =>
      have hne : ¬ c = k := fun e => h (by simp [e])
      have hk : k ∉ cs := fun e => h (by simp [e])
      simp only [List.zip_cons_cons, mapGet, hne, if_false]
      exact ih rest hk

/-! ## Lemmas on the row loop -/

theorem scanLoop_all_ok {Value : Type} (Sprint : Value → String) (columns : List String)
    (vs : List (List Value)) (h : ∀ v ∈ vs, v.length = columns.length) :
    ∀ acc : List RowMap,
      (scanLoop Sprint columns (vs.map Except.ok) acc).1
        = .ok (acc ++ vs.map (rowResult Sprint columns)) := by
  induction vs with
  | nil => intro acc; simp [scanLoop]
  | cons v rest ih =>
    intro acc
    have hv : v.length = columns.length := h v (by simp)
    have hrest : ∀ w ∈ rest, w.length = columns.length := fun w hw => h w (by simp [hw])
    simp [scanLoop, Scan, hv, ih hrest]

theorem scanLoop_ok_inv {Value : Type} (Sprint : Value → String) (columns : List String)
    (scans : List (Except GoError (List Value))) :
    ∀ (acc out : List RowMap), (scanLoop Sprint columns scans acc).1 = .ok out →
      ∃ vs : List (List Value), scans = vs.map Except.ok ∧
        (∀ v ∈ vs, v.length = columns.length) ∧
        out = acc ++ vs.map (rowResult Sprint columns) := by
  induction scans with
  | nil =>
    intro acc out h
    refine ⟨[], rfl, by simp, ?_⟩
    simp only [scanLoop] at h
    simpa using (Except.ok.inj h).symm
  | cons row rest ih =>
    intro acc out h
    cases row with
    | error e => simp [scanLoop, Scan] at h
    | ok vals =>
      by_cases hv : vals.length = columns.length
      · simp only [scanLoop, Scan, hv, if_true] at h
        obtain ⟨vs, h1, h2, h3⟩ := ih _ _ h
        refine ⟨vals :: vs, by simp [h1], ?_, by simp [h3]⟩
        intro v hmem
        rcases List.mem_cons.mp hmem with e | e
        · rw [e]; exact hv
        · exact h2 v e
      · simp [scanLoop, Scan, hv] at h

theorem scanLoop_error_inv {Value : Type} (Sprint : Value → String) (columns : List String)
    (scans : List (Except GoError (List Value))) :
    ∀ (acc : List RowMap) (err : GoError), (scanLoop Sprint columns scans acc).1 = .error err →
      ∃ e : GoError, err = "could not scan output for query: " ++ e := by
  induction scans with
  | nil => intro acc err h; simp [scanLoop] at h
  | cons row rest ih =>
    intro acc err h
    cases hs : Scan columns.length row with
    | error e =>
      simp only [scanLoop, hs] at h
      exact ⟨e, (Except.error.inj h).symm⟩
    | ok rowdata =>
      simp only [scanLoop, hs] at h
      exact ih _ _ h

theorem scanLoop_trace {Value : Type} (Sprint : Value → String) (columns : List String)
    (scans : List (Except GoError (List Value))) :
    ∀ (acc : List RowMap), ∀ x ∈ (scanLoop Sprint columns scans acc).2,
      x = Effect.next ∨ x = Effect.scan := by
  induction scans with
  | nil => intro acc x hx; simp [scanLoop] at hx; exact Or.inl hx
  | cons row rest ih =>
    intro acc x hx
    cases hs : Scan columns.length row with
    | error e =>
      simp only [scanLoop, hs, List.mem_cons, List.mem_singleton] at hx
      simpa using hx
    | ok rowdata =>
      simp only [scanLoop, hs, List.mem_append, List.mem_cons, List.mem_singleton] at hx
      rcases hx with (hx | hx | hx) | hx
      · exact Or.inl hx
      · exact Or.inr hx
      · simp at hx
      · exact ih _ x hx

/-! ## The query handler -/

theorem queryRead_of_cursor {Value : Type} (Sprint : Value → String)
    (db : DBConnection Value) (d : ResourceData) (txn : Txn Value) (cur : Rows Value)
    (hstart : db.startTransaction d.database = .ok txn)
    (hquery : txn.Query d.query (queryArgs d) = .ok cur) :
    dataSourcePostgreSQLQueryRead Sprint db d =
      ⟨(queryReadCursor Sprint d d.database d.query cur).d,
       (queryReadCursor Sprint d d.database d.query cur).ret,
       [Effect.startTransaction d.database] ++
         ([Effect.query d.query (queryArgs d)] ++
           (queryReadCursor Sprint d d.database d.query cur).trace ++ [Effect.close]) ++
         deferredRollback⟩ := by
  simp only [dataSourcePostgreSQLQueryRead, hstart, queryReadTxn, hquery]

theorem queryReadCursor_ok {Value : Type} (Sprint : Value → String) (d : ResourceData)
    (database query : String) (cur : Rows Value) (cols : List String) (types : List ColumnType)
    (out : List RowMap)
    (hcols : cur.columns = .ok cols) (htypes : cur.columnTypes = .ok types)
    (hlen : cols.length ≤ types.length)
    (hloop : (scanLoop Sprint cols cur.scans []).1 = .ok out) :
    (queryReadCursor Sprint d database query cur).ret = .nil ∧
    (queryReadCursor Sprint d database query cur).d =
      { d with
        columns := some (List.zipWith (fun col t => ColumnDescriptor.mk col t.DatabaseTypeName)
          cols types),
        rows := some out,
        id := some (generateDataSourceQueryID database query) } := by
  cases hl : scanLoop Sprint cols cur.scans [] with
  | mk res t =>
    rw [hl] at hloop
    simp only at hloop
    subst hloop
    simp [queryReadCursor, hcols, htypes, outputColumns, hlen, hl]

theorem queryReadCursor_scan_error {Value : Type} (Sprint : Value → String) (d : ResourceData)
    (database query : String) (cur : Rows Value) (cols : List String) (types : List ColumnType)
    (err : GoError)
    (hcols : cur.columns = .ok cols) (htypes : cur.columnTypes = .ok types)
    (hlen : cols.length ≤ types.length)
    (hloop : (scanLoop Sprint cols cur.scans []).1 = .error err) :
    (queryReadCursor Sprint d database query cur).ret = .error err ∧
    (queryReadCursor Sprint d database query cur).d =
      { d with
        columns := some (List.zipWith (fun col t => ColumnDescriptor.mk col t.DatabaseTypeName)
          cols types) } := by
  cases hl : scanLoop Sprint cols cur.scans [] with
  | mk res t =>
    rw [hl] at hloop
    simp only at hloop
    subst hloop
    simp [queryReadCursor, hcols, htypes, outputColumns, hlen, hl]

/-- C2: the `columns` attribute pairs the cursor's column names positionally
    with the driver's type names, in projection order, whatever rows the cursor
    delivers; with zero rows the read succeeds with an empty `rows` list and
    the full `columns` list. -/
theorem queryRead_columns {Value : Type} (Sprint : Value → String)
    (db : DBConnection Value) (d : ResourceData) (txn : Txn Value) (cur : Rows Value)
    (cols : List String) (types : List ColumnType)
    (hstart : db.startTransaction d.database = .ok txn)
    (hquery : txn.Query d.query (queryArgs d) = .ok cur)
    (hcols : cur.columns = .ok cols) (htypes : cur.columnTypes = .ok types)
    (hlen : types.length = cols.length) :
    ∃ output_columns : List ColumnDescriptor,
      (dataSourcePostgreSQLQueryRead Sprint db d).d.columns = some output_columns ∧
      output_columns.length = cols.length ∧
      (∀ (i : Nat) (hi : i < cols.length) (ht : i < types.length)
          (ho : i < output_columns.length),
        output_columns[i] = ⟨cols[i], types[i].DatabaseTypeName⟩) ∧
      (∀ (cur2 : Rows Value) (txn2 : Txn Value) (db2 : DBConnection Value),
        db2.startTransaction d.database = .ok txn2 →
        txn2.Query d.query (queryArgs d) = .ok cur2 →
        cur2.columns = .ok cols → cur2.columnTypes = .ok types →
        (dataSourcePostgreSQLQueryRead Sprint db2 d).d.columns = some output_columns) ∧
      (cur.scans = [] →
        (dataSourcePostgreSQLQueryRead Sprint db d).ret = .nil ∧
        (dataSourcePostgreSQLQueryRead Sprint db d).d.rows = some []) := by
  have hle : cols.length ≤ types.length := by omega
  have key : ∀ (cur2 : Rows Value) (txn2 : Txn Value) (db2 : DBConnection Value),
      db2.startTransaction d.database = .ok txn2 →
      txn2.Query d.query (queryArgs d) = .ok cur2 →
      cur2.columns = .ok cols → cur2.columnTypes = .ok types →
      (dataSourcePostgreSQLQueryRead Sprint db2 d).d.columns
        = some (List.zipWith (fun col t => ColumnDescriptor.mk col t.DatabaseTypeName)
            cols types) := by
    intro cur2 txn2 db2 h1 h2 h3 h4
    rw [queryRead_of_cursor Sprint db2 d txn2 cur2 h1 h2]
    cases hl : (scanLoop Sprint cols cur2.scans []).1 with
    | error err =>
      rw [(queryReadCursor_scan_error Sprint d _ _ cur2 cols types err h3 h4 hle hl).2]
    | ok out =>
      rw [(queryReadCursor_ok Sprint d _ _ cur2 cols types out h3 h4 hle hl).2]
  refine ⟨_, key cur txn db hstart hquery hcols htypes, ?_, ?_, key, ?_⟩
  · simp [hlen]
  · intro i hi ht ho
    simp
  · intro hscans
    have hl : (scanLoop Sprint cols cur.scans []).1 = .ok [] := by
      rw [hscans]; rfl
    have h := queryReadCursor_ok Sprint d d.database d.query cur cols types [] hcols htypes hle hl
    rw [queryRead_of_cursor Sprint db d txn cur hstart hquery]
    exact ⟨h.1, by rw [h.2]⟩

/-- C2 on the cursor of `SELECT * FROM test_schema.test_table`: one TEXT column
    `val` and no row. -/
theorem queryRead_columns_witness :
    ∃ output_columns : List ColumnDescriptor,
      (dataSourcePostgreSQLQueryRead Sprint
        (connectionReturning ⟨.ok ["val"], .ok [⟨"TEXT"⟩], []⟩)
        (queryInputs "db" "SELECT * FROM test_schema.test_table" none)).d.columns
          = some output_columns ∧
      output_columns.length = ["val"].length ∧
      (∀ (i : Nat) (_ : i < ["val"].length) (ht : i < [ColumnType.mk "TEXT"].length)
          (ho : i < output_columns.length),
        output_columns[i] = ⟨["val"][i], [ColumnType.mk "TEXT"][i].DatabaseTypeName⟩) ∧
      (∀ (cur2 : Rows SqlValue) (txn2 : Txn SqlValue) (db2 : DBConnection SqlValue),
        db2.startTransaction "db" = .ok txn2 →
        txn2.Query "SELECT * FROM test_schema.test_table" [] = .ok cur2 →
        cur2.columns = .ok ["val"] → cur2.columnTypes = .ok [⟨"TEXT"⟩] →
        (dataSourcePostgreSQLQueryRead Sprint db2
          (queryInputs "db" "SELECT * FROM test_schema.test_table" none)).d.columns
            = some output_columns) ∧
      ((([] : List (Except GoError (List SqlValue))) = []) →
        (dataSourcePostgreSQLQueryRead Sprint
          (connectionReturning ⟨.ok ["val"], .ok [⟨"TEXT"⟩], []⟩)
          (queryInputs "db" "SELECT * FROM test_schema.test_table" none)).ret = .nil ∧
        (dataSourcePostgreSQLQueryRead Sprint
          (connectionReturning ⟨.ok ["val"], .ok [⟨"TEXT"⟩], []⟩)
          (queryInputs "db" "SELECT * FROM test_schema.test_table" none)).d.rows = some []) :=
  queryRead_columns Sprint (connectionReturning ⟨.ok ["val"], .ok [⟨"TEXT"⟩], []⟩)
    (queryInputs "db" "SELECT * FROM test_schema.test_table" none)
    ⟨fun _ _ => .ok ⟨.ok ["val"], .ok [⟨"TEXT"⟩], []⟩⟩ ⟨.ok ["val"], .ok [⟨"TEXT"⟩], []⟩
    ["val"] [⟨"TEXT"⟩] rfl rfl rfl rfl rfl

/-- C1: with pairwise-distinct column names and every scan succeeding, the read
    returns no error and sets `rows` to one map per delivered row, in delivery
    order; the map of a row has exactly the column names as keys and maps each
    column name to `fmt.Sprint` of the row's value in that column. -/
theorem queryRead_rows {Value : Type} (Sprint : Value → String)
    (db : DBConnection Value) (d : ResourceData) (txn : Txn Value) (cur : Rows Value)
    (cols : List String) (types : List ColumnType) (vs : List (List Value))
    (hstart : db.startTransaction d.database = .ok txn)
    (hquery : txn.Query d.query (queryArgs d) = .ok cur)
    (hcols : cur.columns = .ok cols) (htypes : cur.columnTypes = .ok types)
    (hlen : types.length = cols.length)
    (hnodup : cols.Nodup)
    (hscans : cur.scans = vs.map Except.ok)
    (hvals : ∀ v ∈ vs, v.length = cols.length) :
    (dataSourcePostgreSQLQueryRead Sprint db d).ret = .nil ∧
    ∃ output_rows : List RowMap,
      (dataSourcePostgreSQLQueryRead Sprint db d).d.rows = some output_rows ∧
      output_rows.length = vs.length ∧
      ∀ (j : Nat) (hj : j < vs.length) (ho : j < output_rows.length),
        mapKeys output_rows[j] = cols ∧
        (∀ (i : Nat) (hi : i < cols.length) (hv : i < vs[j].length),
          mapGet output_rows[j] cols[i] = some (Sprint vs[j][i])) ∧
        (∀ k : String, k ∉ cols → mapGet output_rows[j] k = none) := by
  have hle : cols.length ≤ types.length := by omega
  have hl : (scanLoop Sprint cols cur.scans []).1
      = .ok (vs.map (rowResult Sprint cols)) := by
    rw [hscans, scanLoop_all_ok Sprint cols vs hvals []]; simp
  have h := queryReadCursor_ok Sprint d d.database d.query cur cols types _ hcols htypes hle hl
  rw [queryRead_of_cursor Sprint db d txn cur hstart hquery]
  refine ⟨h.1, vs.map (rowResult Sprint cols), by rw [h.2], by simp, ?_⟩
  intro j hj ho
  have hvj : vs[j].length = cols.length := hvals _ (List.getElem_mem _)
  have hrow : (vs.map (rowResult Sprint cols))[j] = cols.zip (vs[j].map Sprint) := by
    rw [List.getElem_map]
    exact rowResult_nodup Sprint cols vs[j] hnodup hvj
  rw [hrow]
  refine ⟨?_, ?_, ?_⟩
  · exact map_fst_zip_of_length cols (vs[j].map Sprint) (by simpa using hvj)
  · intro i hi hv
    have := mapGet_zip (vs[j].map Sprint) cols hnodup (by simpa using hvj) i hi (by simpa using hv)
    simpa using this
  · intro k hk
    exact mapGet_zip_none cols _ k hk

/-- C1 on the cursor of `SELECT 1 as a, '2' as b;`: one row, `a` is `"1"` and
    `b` is `"2"`; and the two-row table gives `val` equal to `"foo"` then `"bar"`. -/
theorem queryRead_rows_witness :
    (dataSourcePostgreSQLQueryRead Sprint
      (connectionReturning ⟨.ok ["val"], .ok [⟨"TEXT"⟩],
        [.ok [SqlValue.text "foo"], .ok [SqlValue.text "bar"]]⟩)
      (queryInputs "db" "SELECT * FROM test_schema1.test_table1" none)).d.rows
        = some [[("val", "foo")], [("val", "bar")]] ∧
    (dataSourcePostgreSQLQueryRead Sprint
      (connectionReturning ⟨.ok ["a", "b"], .ok [⟨"INT4"⟩, ⟨"TEXT"⟩],
        [.ok [SqlValue.int 1, SqlValue.text "2"]]⟩)
      (queryInputs "db" "SELECT 1 as a, '2' as b;" none)).d.rows
        = some [[("a", "1"), ("b", "2")]] ∧
    (dataSourcePostgreSQLQueryRead Sprint
      (connectionReturning ⟨.ok ["a", "b"], .ok [⟨"INT4"⟩, ⟨"TEXT"⟩],
        [.ok [SqlValue.int 1, SqlValue.text "2"]]⟩)
      (queryInputs "db" "SELECT 1 as a, '2' as b;" none)).ret = .nil ∧
    ∃ output_rows : List RowMap,
      (dataSourcePostgreSQLQueryRead Sprint
        (connectionReturning ⟨.ok ["a", "b"], .ok [⟨"INT4"⟩, ⟨"TEXT"⟩],
          [.ok [SqlValue.int 1, SqlValue.text "2"]]⟩)
        (queryInputs "db" "SELECT 1 as a, '2' as b;" none)).d.rows = some output_rows ∧
      output_rows.length = [[SqlValue.int 1, SqlValue.text "2"]].length ∧
      ∀ (j : Nat) (hj : j < [[SqlValue.int 1, SqlValue.text "2"]].length)
          (ho : j < output_rows.length),
        mapKeys output_rows[j] = ["a", "b"] ∧
        (∀ (i : Nat) (hi : i < ["a", "b"].length)
            (hv : i < [[SqlValue.int 1, SqlValue.text "2"]][j].length),
          mapGet output_rows[j] ["a", "b"][i]
            = some (Sprint [[SqlValue.int 1, SqlValue.text "2"]][j][i])) ∧
        (∀ k : String, k ∉ ["a", "b"] → mapGet output_rows[j] k = none) :=
  ⟨by decide, by decide,
   queryRead_rows Sprint
    (connectionReturning ⟨.ok ["a", "b"], .ok [⟨"INT4"⟩, ⟨"TEXT"⟩],
      [.ok [SqlValue.int 1, SqlValue.text "2"]]⟩)
    (queryInputs "db" "SELECT 1 as a, '2' as b;" none)
    ⟨fun _ _ => .ok ⟨.ok ["a", "b"], .ok [⟨"INT4"⟩, ⟨"TEXT"⟩],
      [.ok [SqlValue.int 1, SqlValue.text "2"]]⟩⟩
    ⟨.ok ["a", "b"], .ok [⟨"INT4"⟩, ⟨"TEXT"⟩], [.ok [SqlValue.int 1, SqlValue.text "2"]]⟩
    ["a", "b"] [⟨"INT4"⟩, ⟨"TEXT"⟩] [[SqlValue.int 1, SqlValue.text "2"]]
    rfl rfl rfl rfl rfl (by decide) rfl (by decide)⟩

/-- C7 as stated fails: a cursor with one column whose first row cannot be
    scanned makes the read return an error after `columns` has been set. -/
theorem queryRead_error_not_atomic :
    (dataSourcePostgreSQLQueryRead Sprint
      (connectionReturning ⟨.ok ["val"], .ok [⟨"TEXT"⟩], [.error "bad row"]⟩)
      (queryInputs "db" "SELECT * FROM t" none)).ret
        = .error "could not scan output for query: bad row" ∧
    (queryInputs "db" "SELECT * FROM t" none).columns = none ∧
    (dataSourcePostgreSQLQueryRead Sprint
      (connectionReturning ⟨.ok ["val"], .ok [⟨"TEXT"⟩], [.error "bad row"]⟩)
      (queryInputs "db" "SELECT * FROM t" none)).d.columns = some [⟨"val", "TEXT"⟩] := by
  decide

/-- C7, amended: when the read does not return nil, `rows` and the identifier
    are as they were before the call, and the attribute bag is unchanged
    altogether unless the returned error is that of a row scan; an error of
    opening the transaction, of executing the statement or of introspecting
    the columns is returned as it is with the attribute bag unchanged. -/
theorem queryRead_error_outputs {Value : Type} (Sprint : Value → String)
    (db : DBConnection Value) (d : ResourceData)
    (herr : (dataSourcePostgreSQLQueryRead Sprint db d).ret ≠ .nil) :
    (dataSourcePostgreSQLQueryRead Sprint db d).d.rows = d.rows ∧
    (dataSourcePostgreSQLQueryRead Sprint db d).d.id = d.id ∧
    ((dataSourcePostgreSQLQueryRead Sprint db d).d = d ∨
      ∃ e : GoError, (dataSourcePostgreSQLQueryRead Sprint db d).ret
        = .error ("could not scan output for query: " ++ e)) ∧
    (∀ e : GoError, db.startTransaction d.database = .error e →
      (dataSourcePostgreSQLQueryRead Sprint db d).ret = .error e ∧
      (dataSourcePostgreSQLQueryRead Sprint db d).d = d) ∧
    (∀ (txn : Txn Value) (e : GoError), db.startTransaction d.database = .ok txn →
      txn.Query d.query (queryArgs d) = .error e →
      (dataSourcePostgreSQLQueryRead Sprint db d).ret = .error e ∧
      (dataSourcePostgreSQLQueryRead Sprint db d).d = d) ∧
    (∀ (txn : Txn Value) (cur : Rows Value) (e : GoError),
      db.startTransaction d.database = .ok txn →
      txn.Query d.query (queryArgs d) = .ok cur →
      (cur.columns = .error e ∨ (∃ cols, cur.columns = .ok cols) ∧ cur.columnTypes = .error e) →
      (dataSourcePostgreSQLQueryRead Sprint db d).ret = .error e ∧
      (dataSourcePostgreSQLQueryRead Sprint db d).d = d) := by
  refine ⟨?_, ?_, ?_, ?_, ?_, ?_⟩
  on_goal 4 =>
    intro e he
    simp [dataSourcePostgreSQLQueryRead, he]
  on_goal 4 =>
    intro txn e h1 h2
    simp [dataSourcePostgreSQLQueryRead, h1, queryReadTxn, h2]
  on_goal 4 =>
    intro txn cur e h1 h2 h3
    rw [queryRead_of_cursor Sprint db d txn cur h1 h2]
    rcases h3 with h3 | ⟨⟨cols, h3⟩, h4⟩
    · simp [queryReadCursor, h3]
    · simp [queryReadCursor, h3, h4]
  all_goals
    cases hstart : db.startTransaction d.database with
    | error e => simp [dataSourcePostgreSQLQueryRead, hstart]
    | ok txn =>
      cases hquery : txn.Query d.query (queryArgs d) with
      | error e => simp [dataSourcePostgreSQLQueryRead, hstart, queryReadTxn, hquery]
      | ok cur =>
        rw [queryRead_of_cursor Sprint db d txn cur hstart hquery] at herr ⊢
        simp only at herr ⊢
        cases hcols : cur.columns with
        | error e => simp [queryReadCursor, hcols]
        | ok cols =>
          cases htypes : cur.columnTypes with
          | error e => simp [queryReadCursor, hcols, htypes]
          | ok types =>
            by_cases hle : cols.length ≤ types.length
            · cases hl : (scanLoop Sprint cols cur.scans []).1 with
              | error err =>
                have h := queryReadCursor_scan_error Sprint d d.database d.query cur cols types
                  err hcols htypes hle hl
                obtain ⟨e, he⟩ := scanLoop_error_inv Sprint cols cur.scans [] err hl
                first
                  | exact Or.inr ⟨e, by rw [h.1, he]⟩
                  | rw [h.2]
              | ok out =>
                have h := queryReadCursor_ok Sprint d d.database d.query cur cols types
                  out hcols htypes hle hl
                exact absurd h.1 herr
            · simp [queryReadCursor, hcols, htypes, outputColumns, hle]

/-- C7, amended, on the cursor whose first row cannot be scanned. -/
theorem queryRead_error_outputs_witness :
    (dataSourcePostgreSQLQueryRead Sprint
      (connectionReturning ⟨.ok ["val"], .ok [⟨"TEXT"⟩], [.error "bad row"]⟩)
      (queryInputs "db" "SELECT * FROM t" none)).ret ≠ .nil ∧
    (dataSourcePostgreSQLQueryRead Sprint
      (connectionReturning ⟨.ok ["val"], .ok [⟨"TEXT"⟩], [.error "bad row"]⟩)
      (queryInputs "db" "SELECT * FROM t" none)).d.rows = none ∧
    (dataSourcePostgreSQLQueryRead Sprint
      (connectionReturning ⟨.ok ["val"], .ok [⟨"TEXT"⟩], [.error "bad row"]⟩)
      (queryInputs "db" "SELECT * FROM t" none)).d.id = none :=
  ⟨by decide,
   (queryRead_error_outputs Sprint
      (connectionReturning ⟨.ok ["val"], .ok [⟨"TEXT"⟩], [.error "bad row"]⟩)
      (queryInputs "db" "SELECT * FROM t" none) (by decide)).1,
   (queryRead_error_outputs Sprint
      (connectionReturning ⟨.ok ["val"], .ok [⟨"TEXT"⟩], [.error "bad row"]⟩)
      (queryInputs "db" "SELECT * FROM t" none) (by decide)).2.1⟩

/-- C8 as stated fails: on the cursor of `SELECT 1 AS a, 2 AS a` the read
    succeeds with two column descriptors and a row map of one cell. -/
theorem queryRead_repeated_name_one_cell :
    (dataSourcePostgreSQLQueryRead Sprint
      (connectionReturning ⟨.ok ["a", "a"], .ok [⟨"INT4"⟩, ⟨"INT4"⟩],
        [.ok [SqlValue.int 1, SqlValue.int 2]]⟩)
      (queryInputs "db" "SELECT 1 AS a, 2 AS a" none)).ret = .nil ∧
    (dataSourcePostgreSQLQueryRead Sprint
      (connectionReturning ⟨.ok ["a", "a"], .ok [⟨"INT4"⟩, ⟨"INT4"⟩],
        [.ok [SqlValue.int 1, SqlValue.int 2]]⟩)
      (queryInputs "db" "SELECT 1 AS a, 2 AS a" none)).d.columns
        = some [⟨"a", "INT4"⟩, ⟨"a", "INT4"⟩] ∧
    (dataSourcePostgreSQLQueryRead Sprint
      (connectionReturning ⟨.ok ["a", "a"], .ok [⟨"INT4"⟩, ⟨"INT4"⟩],
        [.ok [SqlValue.int 1, SqlValue.int 2]]⟩)
      (queryInputs "db" "SELECT 1 AS a, 2 AS a" none)).d.rows = some [[("a", "2")]] ∧
    ([("a", "2")] : RowMap).length ≠ ["a", "a"].length := by
  decide

/-- C8, amended: when the read succeeds on a cursor with `n` columns, `columns`
    has `n` descriptors and every row map in `rows` has as many cells as the
    cursor has distinct column names: exactly `n` when the column names are
    pairwise distinct, fewer than `n` when a column name is repeated. -/
theorem queryRead_row_cells {Value : Type} (Sprint : Value → String)
    (db : DBConnection Value) (d : ResourceData) (txn : Txn Value) (cur : Rows Value)
    (cols : List String) (types : List ColumnType)
    (hstart : db.startTransaction d.database = .ok txn)
    (hquery : txn.Query d.query (queryArgs d) = .ok cur)
    (hcols : cur.columns = .ok cols) (htypes : cur.columnTypes = .ok types)
    (hret : (dataSourcePostgreSQLQueryRead Sprint db d).ret = .nil) :
    ∃ (output_columns : List ColumnDescriptor) (output_rows : List RowMap),
      (dataSourcePostgreSQLQueryRead Sprint db d).d.columns = some output_columns ∧
      (dataSourcePostgreSQLQueryRead Sprint db d).d.rows = some output_rows ∧
      output_columns.length = cols.length ∧
      output_rows.length = cur.scans.length ∧
      ∀ row ∈ output_rows,
        row.length = cols.dedup.length ∧
        row.length ≤ output_columns.length ∧
        (cols.Nodup → row.length = output_columns.length) ∧
        (¬ cols.Nodup → row.length < output_columns.length) := by
  rw [queryRead_of_cursor Sprint db d txn cur hstart hquery] at hret ⊢
  simp only at hret ⊢
  by_cases hle : cols.length ≤ types.length
  · cases hl : (scanLoop Sprint cols cur.scans []).1 with
    | error err =>
      have h := queryReadCursor_scan_error Sprint d d.database d.query cur cols types
        err hcols htypes hle hl
      rw [h.1] at hret
      exact absurd hret (by simp)
    | ok out =>
      have h := queryReadCursor_ok Sprint d d.database d.query cur cols types
        out hcols htypes hle hl
      obtain ⟨vs, h1, h2, h3⟩ := scanLoop_ok_inv Sprint cols cur.scans [] out hl
      have hcl : (List.zipWith (fun col t => ColumnDescriptor.mk col t.DatabaseTypeName)
          cols types).length = cols.length := by simp [hle]
      refine ⟨_, out, by rw [h.2], by rw [h.2], hcl, by simp [h3, h1], ?_⟩
      intro row hrow
      rw [h3] at hrow
      simp only [List.nil_append, List.mem_map] at hrow
      obtain ⟨v, hv, rfl⟩ := hrow
      have hlenrow := rowResult_length Sprint cols v (h2 v hv)
      rw [hcl]
      refine ⟨hlenrow, ?_, ?_, ?_⟩
      · rw [hlenrow]; exact (List.dedup_sublist cols).length_le
      · intro hnd
        rw [hlenrow, hnd.dedup]
      · intro hnn
        rw [hlenrow]
        rcases Nat.lt_or_eq_of_le (List.dedup_sublist cols).length_le with hlt | heq
        · exact hlt
        · have hself : cols.dedup = cols := (List.dedup_sublist cols).eq_of_length heq
          exact absurd (hself ▸ List.nodup_dedup cols) hnn
  · simp [queryReadCursor, hcols, htypes, outputColumns, hle] at hret

/-- C8, amended, on the cursor of `SELECT 1 as a, '2' as b;`. -/
theorem queryRead_row_cells_witness :
    ∃ (output_columns : List ColumnDescriptor) (output_rows : List RowMap),
      (dataSourcePostgreSQLQueryRead Sprint
        (connectionReturning ⟨.ok ["a", "b"], .ok [⟨"INT4"⟩, ⟨"TEXT"⟩],
          [.ok [SqlValue.int 1, SqlValue.text "2"]]⟩)
        (queryInputs "db" "SELECT 1 as a, '2' as b;" none)).d.columns = some output_columns ∧
      (dataSourcePostgreSQLQueryRead Sprint
        (connectionReturning ⟨.ok ["a", "b"], .ok [⟨"INT4"⟩, ⟨"TEXT"⟩],
          [.ok [SqlValue.int 1, SqlValue.text "2"]]⟩)
        (queryInputs "db" "SELECT 1 as a, '2' as b;" none)).d.rows = some output_rows ∧
      output_columns.length = ["a", "b"].length ∧
      output_rows.length
        = ([.ok [SqlValue.int 1, SqlValue.text "2"]] :
            List (Except GoError (List SqlValue))).length ∧
      ∀ row ∈ output_rows,
        row.length = ["a", "b"].dedup.length ∧
        row.length ≤ output_columns.length ∧
        (["a", "b"].Nodup → row.length = output_columns.length) ∧
        (¬ ["a", "b"].Nodup → row.length < output_columns.length) :=
  queryRead_row_cells Sprint
    (connectionReturning ⟨.ok ["a", "b"], .ok [⟨"INT4"⟩, ⟨"TEXT"⟩],
      [.ok [SqlValue.int 1, SqlValue.text "2"]]⟩)
    (queryInputs "db" "SELECT 1 as a, '2' as b;" none)
    ⟨fun _ _ => .ok ⟨.ok ["a", "b"], .ok [⟨"INT4"⟩, ⟨"TEXT"⟩],
      [.ok [SqlValue.int 1, SqlValue.text "2"]]⟩⟩
    ⟨.ok ["a", "b"], .ok [⟨"INT4"⟩, ⟨"TEXT"⟩], [.ok [SqlValue.int 1, SqlValue.text "2"]]⟩
    ["a", "b"] [⟨"INT4"⟩, ⟨"TEXT"⟩] rfl rfl rfl rfl (by decide)

/-! ## Traces of the handlers -/

theorem queryReadCursor_trace {Value : Type} (Sprint : Value → String) (d : ResourceData)
    (database query : String) (cur : Rows Value) :
    ∀ x ∈ (queryReadCursor Sprint d database query cur).trace,
      x = Effect.columns ∨ x = Effect.columnTypes ∨ x = Effect.next ∨ x = Effect.scan := by
  intro x hx
  unfold queryReadCursor at hx
  cases hcols : cur.columns with
  | error e => simp [hcols] at hx; exact Or.inl hx
  | ok cols =>
    cases htypes : cur.columnTypes with
    | error e =>
      simp [hcols, htypes] at hx
      rcases hx with hx | hx
      · exact Or.inl hx
      · exact Or.inr (Or.inl hx)
    | ok types =>
      cases hout : outputColumns cols types with
      | none =>
        simp [hcols, htypes, hout] at hx
        rcases hx with hx | hx
        · exact Or.inl hx
        · exact Or.inr (Or.inl hx)
      | some oc =>
        have hloop := scanLoop_trace Sprint cols cur.scans []
        cases hl : scanLoop Sprint cols cur.scans [] with
        | mk res t =>
          rw [hl] at hloop
          cases res with
          | error err =>
            simp [hcols, htypes, hout, hl] at hx
            rcases hx with hx | hx | hx
            · exact Or.inl hx
            · exact Or.inr (Or.inl hx)
            · exact Or.inr (Or.inr (hloop x hx))
          | ok out =>
            simp [hcols, htypes, hout, hl] at hx
            rcases hx with hx | hx | hx
            · exact Or.inl hx
            · exact Or.inr (Or.inl hx)
            · exact Or.inr (Or.inr (hloop x hx))

theorem scanTablesLoop_trace {Value : Type} (convertAssign : Value → Except GoError String)
    (scans : List (Except GoError (List Value))) :
    ∀ (acc : List TableEntry), ∀ x ∈ (scanTablesLoop convertAssign scans acc).2,
      x = Effect.next ∨ x = Effect.scan := by
  induction scans with
  | nil => intro acc x hx; simp [scanTablesLoop] at hx; exact Or.inl hx
  | cons row rest ih =>
    intro acc x hx
    cases hs : ScanTable convertAssign row with
    | error e =>
      simp only [scanTablesLoop, hs, List.mem_cons, List.mem_singleton] at hx
      simpa using hx
    | ok names =>
      obtain ⟨schema_name, table_name⟩ := names
      simp only [scanTablesLoop, hs, List.mem_append, List.mem_cons, List.mem_singleton] at hx
      rcases hx with (hx | hx | hx) | hx
      · exact Or.inl hx
      · exact Or.inr hx
      · simp at hx
      · exact ih _ x hx

theorem tablesReadCursor_trace {Value : Type} (convertAssign : Value → Except GoError String)
    (d : ResourceData) (database : String) (cur : Rows Value) :
    ∀ x ∈ (tablesReadCursor convertAssign d database cur).trace,
      x = Effect.next ∨ x = Effect.scan := by
  intro x hx
  have hloop := scanTablesLoop_trace convertAssign cur.scans []
  unfold tablesReadCursor at hx
  cases hl : scanTablesLoop convertAssign cur.scans [] with
  | mk res t =>
    rw [hl] at hloop
    cases res with
    | error err => simp [hl] at hx; exact hloop x hx
    | ok out => simp [hl] at hx; exact hloop x hx

/-- The shape of a handler trace after a successful `startTransaction` and a
    successful `txn.Query`: the cursor calls between the statement and the
    deferred `rows.Close()` and rollback. -/
theorem released_trace (database statement : String) (args : List String) (mid : List Effect)
    (hmid : ∀ x ∈ mid, x ≠ Effect.rollback ∧ x ≠ Effect.commit ∧ x ≠ Effect.close) :
    List.count Effect.rollback
      ([Effect.startTransaction database] ++ ([Effect.query statement args] ++ mid ++
        [Effect.close]) ++ deferredRollback) = 1 ∧
    List.count Effect.close
      ([Effect.startTransaction database] ++ ([Effect.query statement args] ++ mid ++
        [Effect.close]) ++ deferredRollback) = 1 ∧
    Effect.commit ∉
      ([Effect.startTransaction database] ++ ([Effect.query statement args] ++ mid ++
        [Effect.close]) ++ deferredRollback) := by
  have h1 : List.count Effect.rollback mid = 0 :=
    List.count_eq_zero.mpr (fun h => (hmid _ h).1 rfl)
  have h2 : List.count Effect.close mid = 0 :=
    List.count_eq_zero.mpr (fun h => (hmid _ h).2.2 rfl)
  have h3 : Effect.commit ∉ mid := fun h => (hmid _ h).2.1 rfl
  refine ⟨?_, ?_, ?_⟩
  · simp [deferredRollback, List.count_cons, h1]
  · simp [deferredRollback, List.count_cons, h2]
  · simp [deferredRollback, h3]

theorem tablesRead_of_cursor {Value : Type} (H : FilterHelpers)
    (convertAssign : Value → Except GoError String)
    (db : DBConnection Value) (d : ResourceData) (txn : Txn Value) (cur : Rows Value)
    (hstart : db.startTransaction d.database = .ok txn)
    (hquery : txn.Query (tablesStatement H d) [] = .ok cur) :
    dataSourcePostgreSQLTablesRead H convertAssign db d =
      ⟨(tablesReadCursor convertAssign d d.database cur).d,
       (tablesReadCursor convertAssign d d.database cur).ret,
       [Effect.startTransaction d.database] ++
         ([Effect.query (tablesStatement H d) []] ++
           (tablesReadCursor convertAssign d d.database cur).trace ++ [Effect.close]) ++
         deferredRollback⟩ := by
  simp only [dataSourcePostgreSQLTablesRead, hstart, tablesReadTxn, hquery]

theorem queryRead_mid {Value : Type} (Sprint : Value → String) (d : ResourceData)
    (database query : String) (cur : Rows Value) :
    ∀ x ∈ (queryReadCursor Sprint d database query cur).trace,
      x ≠ Effect.rollback ∧ x ≠ Effect.commit ∧ x ≠ Effect.close := by
  intro x hx
  rcases queryReadCursor_trace Sprint d database query cur x hx with h | h | h | h <;>
    simp [h]

theorem tablesRead_mid {Value : Type} (convertAssign : Value → Except GoError String)
    (d : ResourceData) (database : String) (cur : Rows Value) :
    ∀ x ∈ (tablesReadCursor convertAssign d database cur).trace,
      x ≠ Effect.rollback ∧ x ≠ Effect.commit ∧ x ≠ Effect.close := by
  intro x hx
  rcases tablesReadCursor_trace convertAssign d database cur x hx with h | h <;>
    simp [h]

/-- C9: in both read handlers, when `startTransaction` fails its error is
    returned and nothing else is called; when it succeeds the trace holds
    exactly one rollback, as its last effect, and no commit; and when
    `txn.Query` succeeds too the cursor is closed exactly once, right before
    the rollback. -/
theorem read_handlers_release {Value : Type} (Sprint : Value → String) (H : FilterHelpers)
    (convertAssign : Value → Except GoError String)
    (db : DBConnection Value) (d : ResourceData) :
    (∀ e : GoError, db.startTransaction d.database = .error e →
      (dataSourcePostgreSQLQueryRead Sprint db d).ret = .error e ∧
      (dataSourcePostgreSQLQueryRead Sprint db d).trace
        = [Effect.startTransaction d.database] ∧
      (dataSourcePostgreSQLTablesRead H convertAssign db d).ret = .error e ∧
      (dataSourcePostgreSQLTablesRead H convertAssign db d).trace
        = [Effect.startTransaction d.database]) ∧
    (∀ txn : Txn Value, db.startTransaction d.database = .ok txn →
      List.count Effect.rollback (dataSourcePostgreSQLQueryRead Sprint db d).trace = 1 ∧
      (dataSourcePostgreSQLQueryRead Sprint db d).trace.getLast? = some Effect.rollback ∧
      Effect.commit ∉ (dataSourcePostgreSQLQueryRead Sprint db d).trace ∧
      List.count Effect.rollback
        (dataSourcePostgreSQLTablesRead H convertAssign db d).trace = 1 ∧
      (dataSourcePostgreSQLTablesRead H convertAssign db d).trace.getLast?
        = some Effect.rollback ∧
      Effect.commit ∉ (dataSourcePostgreSQLTablesRead H convertAssign db d).trace) ∧
    (∀ (txn : Txn Value) (cur : Rows Value), db.startTransaction d.database = .ok txn →
      txn.Query d.query (queryArgs d) = .ok cur →
      List.count Effect.close (dataSourcePostgreSQLQueryRead Sprint db d).trace = 1 ∧
      ∃ before : List Effect, (dataSourcePostgreSQLQueryRead Sprint db d).trace
        = before ++ [Effect.close, Effect.rollback]) ∧
    (∀ (txn : Txn Value) (cur : Rows Value), db.startTransaction d.database = .ok txn →
      txn.Query (tablesStatement H d) [] = .ok cur →
      List.count Effect.close (dataSourcePostgreSQLTablesRead H convertAssign db d).trace = 1 ∧
      ∃ before : List Effect, (dataSourcePostgreSQLTablesRead H convertAssign db d).trace
        = before ++ [Effect.close, Effect.rollback]) := by
  refine ⟨?_, ?_, ?_, ?_⟩
  · intro e he
    simp [dataSourcePostgreSQLQueryRead, dataSourcePostgreSQLTablesRead, he]
  · intro txn hstart
    have hq : List.count Effect.rollback (dataSourcePostgreSQLQueryRead Sprint db d).trace = 1 ∧
        (dataSourcePostgreSQLQueryRead Sprint db d).trace.getLast? = some Effect.rollback ∧
        Effect.commit ∉ (dataSourcePostgreSQLQueryRead Sprint db d).trace := by
      cases hquery : txn.Query d.query (queryArgs d) with
      | error e =>
        simp [dataSourcePostgreSQLQueryRead, hstart, queryReadTxn, hquery, deferredRollback,
          List.count_cons]
      | ok cur =>
        rw [queryRead_of_cursor Sprint db d txn cur hstart hquery]
        have h := released_trace d.database d.query (queryArgs d) _
          (queryRead_mid Sprint d d.database d.query cur)
        exact ⟨h.1, by rw [deferredRollback]; exact List.getLast?_concat _, h.2.2⟩
    have ht : List.count Effect.rollback
          (dataSourcePostgreSQLTablesRead H convertAssign db d).trace = 1 ∧
        (dataSourcePostgreSQLTablesRead H convertAssign db d).trace.getLast?
          = some Effect.rollback ∧
        Effect.commit ∉ (dataSourcePostgreSQLTablesRead H convertAssign db d).trace := by
      cases hquery : txn.Query (tablesStatement H d) [] with
      | error e =>
        simp [dataSourcePostgreSQLTablesRead, hstart, tablesReadTxn, hquery, deferredRollback,
          List.count_cons]
      | ok cur =>
        rw [tablesRead_of_cursor H convertAssign db d txn cur hstart hquery]
        have h := released_trace d.database (tablesStatement H d) [] _
          (tablesRead_mid convertAssign d d.database cur)
        exact ⟨h.1, by rw [deferredRollback]; exact List.getLast?_concat _, h.2.2⟩
    exact ⟨hq.1, hq.2.1, hq.2.2, ht.1, ht.2.1, ht.2.2⟩
  · intro txn cur hstart hquery
    rw [queryRead_of_cursor Sprint db d txn cur hstart hquery]
    have h := released_trace d.database d.query (queryArgs d) _
      (queryRead_mid Sprint d d.database d.query cur)
    refine ⟨h.2.1, [Effect.startTransaction d.database] ++ ([Effect.query d.query (queryArgs d)]
      ++ (queryReadCursor Sprint d d.database d.query cur).trace), ?_⟩
    simp [deferredRollback]
  · intro txn cur hstart hquery
    rw [tablesRead_of_cursor H convertAssign db d txn cur hstart hquery]
    have h := released_trace d.database (tablesStatement H d) [] _
      (tablesRead_mid convertAssign d d.database cur)
    refine ⟨h.2.1, [Effect.startTransaction d.database] ++ ([Effect.query (tablesStatement H d) []]
      ++ (tablesReadCursor convertAssign d d.database cur).trace), ?_⟩
    simp [deferredRollback]

/-- C9 on a cursor whose second row cannot be scanned: the query handler
    returns the scan error, closes the cursor once and rolls back once, last. -/
theorem read_handlers_release_witness :
    List.count Effect.rollback
      (dataSourcePostgreSQLQueryRead Sprint
        (connectionReturning ⟨.ok ["val"], .ok [⟨"TEXT"⟩],
          [.ok [SqlValue.text "foo"], .error "bad row"]⟩)
        (queryInputs "db" "SELECT * FROM t" none)).trace = 1 ∧
    (dataSourcePostgreSQLQueryRead Sprint
        (connectionReturning ⟨.ok ["val"], .ok [⟨"TEXT"⟩],
          [.ok [SqlValue.text "foo"], .error "bad row"]⟩)
        (queryInputs "db" "SELECT * FROM t" none)).trace
      = [Effect.startTransaction "db", Effect.query "SELECT * FROM t" [],
         Effect.columns, Effect.columnTypes, Effect.next, Effect.scan, Effect.next,
         Effect.scan, Effect.close, Effect.rollback] ∧
    (dataSourcePostgreSQLQueryRead Sprint
        (connectionReturning ⟨.ok ["val"], .ok [⟨"TEXT"⟩],
          [.ok [SqlValue.text "foo"], .error "bad row"]⟩)
        (queryInputs "db" "SELECT * FROM t" none)).ret
      = .error "could not scan output for query: bad row" :=
  ⟨((read_handlers_release Sprint specHelpers (fun v => .ok (Sprint v))
      (connectionReturning ⟨.ok ["val"], .ok [⟨"TEXT"⟩],
        [.ok [SqlValue.text "foo"], .error "bad row"]⟩)
      (queryInputs "db" "SELECT * FROM t" none)).2.1
        ⟨fun _ _ => .ok ⟨.ok ["val"], .ok [⟨"TEXT"⟩],
          [.ok [SqlValue.text "foo"], .error "bad row"]⟩⟩ rfl).1,
   by decide, by decide⟩

/-! ## Counting a keyword in a statement -/

theorem startsWithChars_append_sep (c : Char) (B : List Char) :
    ∀ (pat X : List Char), c ∉ pat →
      startsWithChars pat (X ++ c :: B) = startsWithChars pat X := by
  intro pat
  induction pat with
  | nil => intro X _; cases X <;> rfl
  | cons p ps ih =>
    intro X hc
    have hp : ¬ p = c := fun e => hc (by simp [e])
    have hps : c ∉ ps := fun e => hc (by simp [e])
    cases X with
    | nil => simp [startsWithChars, hp]
    | cons x X' => simp [startsWithChars, ih X' hps]

theorem countChars_cons_ne (p : Char) (ps : List Char) (c : Char) (X : List Char)
    (h : c ≠ p) : countChars (p :: ps) (c :: X) = countChars (p :: ps) X := by
  have hp : ¬ p = c := fun e => h e.symm
  simp [countChars, startsWithChars, hp]

theorem countChars_cons (pat : List Char) (c : Char) (cs : List Char) :
    countChars pat (c :: cs)
      = (if startsWithChars pat (c :: cs) then 1 else 0) + countChars pat cs := rfl

theorem countChars_append_sep (p : Char) (ps : List Char) (c : Char) (A X : List Char)
    (h : c ∉ p :: ps) :
    countChars (p :: ps) (A ++ c :: X) = countChars (p :: ps) A + countChars (p :: ps) X := by
  induction A with
  | nil =>
    have hc : c ≠ p := fun e => h (by simp [e])
    rw [List.nil_append, countChars_cons_ne p ps c X hc]
    simp [countChars]
  | cons a A' ih =>
    have hs := startsWithChars_append_sep c X (p :: ps) (a :: A') h
    rw [List.cons_append] at hs
    rw [List.cons_append, countChars_cons, countChars_cons, hs, ih]
    omega

theorem keywordCount_appendFragment (query queryConcatKeyword fragment : String) :
    keywordCount "WHERE" (appendFragment query queryConcatKeyword fragment).1
      = keywordCount "WHERE" query + keywordCount "WHERE" queryConcatKeyword
        + keywordCount "WHERE" fragment := by
  simp only [appendFragment, keywordCount, String.data_append, List.append_assoc,
    List.cons_append, List.nil_append]
  rw [countChars_append_sep _ _ _ _ _ (by simp), countChars_append_sep _ _ _ _ _ (by simp)]
  omega

theorem countChars_nil (pat : List Char) : countChars pat [] = 0 := rfl

theorem keywordCount_quoted_join (vs : List String)
    (h : ∀ v ∈ vs, keywordCount "WHERE" v = 0) :
    keywordCount "WHERE" (stringsJoin (vs.map (fun p => "'" ++ p ++ "'")) ",") = 0 := by
  induction vs with
  | nil => simp [stringsJoin, keywordCount, countChars_nil]
  | cons v rest ih =>
    have hv : countChars ['W', 'H', 'E', 'R', 'E'] v.data = 0 := by
      have := h v (by simp)
      simpa [keywordCount] using this
    have hrest : ∀ w ∈ rest, keywordCount "WHERE" w = 0 := fun w hw => h w (by simp [hw])
    cases rest with
    | nil =>
      simp only [List.map_cons, List.map_nil, stringsJoin, keywordCount, String.data_append,
        List.append_assoc, List.cons_append, List.nil_append]
      rw [countChars_cons_ne _ _ _ _ (by simp), countChars_append_sep _ _ _ _ _ (by simp), hv]
      simp [countChars_nil]
    | cons w rest2 =>
      have ih2 := ih hrest
      simp only [List.map_cons, keywordCount] at ih2
      simp only [List.map_cons, stringsJoin, keywordCount, String.data_append,
        List.append_assoc, List.cons_append, List.nil_append]
      rw [countChars_cons_ne _ _ _ _ (by simp), countChars_append_sep _ _ _ _ _ (by simp), hv,
        countChars_cons_ne _ _ _ _ (by simp)]
      simpa using ih2

theorem keywordCount_generatePatternArrayString (vs : List String) (queryArrayKeyword : String)
    (h : ∀ v ∈ vs, keywordCount "WHERE" v = 0) :
    keywordCount "WHERE" (generatePatternArrayString vs queryArrayKeyword)
      = keywordCount "WHERE" queryArrayKeyword := by
  have hj := keywordCount_quoted_join vs h
  simp only [keywordCount] at hj
  simp only [generatePatternArrayString, keywordCount, String.data_append,
    List.append_assoc, List.cons_append, List.nil_append]
  rw [countChars_append_sep _ _ _ _ _ (by simp)]
  repeat rw [countChars_cons_ne _ _ _ _ (by simp)]
  rw [countChars_append_sep _ _ _ _ _ (by simp), hj]
  repeat rw [countChars_cons_ne _ _ _ _ (by simp)]
  simp [countChars_nil]

theorem keywordCount_filterFragments (d : ResourceData)
    (hvals : ∀ v ∈ filterValues d, keywordCount "WHERE" v = 0) :
    ∀ f ∈ filterFragments d, keywordCount "WHERE" f = 0 := by
  have h1 : ∀ v ∈ d.schemas, keywordCount "WHERE" v = 0 :=
    fun v hv => hvals v (by simp [filterValues, hv])
  have h2 : ∀ v ∈ d.like_any_patterns, keywordCount "WHERE" v = 0 :=
    fun v hv => hvals v (by simp [filterValues, hv])
  have h3 : ∀ v ∈ d.like_all_patterns, keywordCount "WHERE" v = 0 :=
    fun v hv => hvals v (by simp [filterValues, hv])
  have h4 : ∀ v ∈ d.not_like_all_patterns, keywordCount "WHERE" v = 0 :=
    fun v hv => hvals v (by simp [filterValues, hv])
  have h5 : countChars ['W', 'H', 'E', 'R', 'E'] d.regex_pattern.data = 0 := by
    have := hvals d.regex_pattern (by simp [filterValues])
    simpa [keywordCount] using this
  have g1 := keywordCount_generatePatternArrayString d.schemas queryArrayKeywordAny h1
  have g2 := keywordCount_generatePatternArrayString d.like_any_patterns queryArrayKeywordAny h2
  have g3 := keywordCount_generatePatternArrayString d.like_all_patterns queryArrayKeywordAll h3
  have g4 := keywordCount_generatePatternArrayString d.not_like_all_patterns
    queryArrayKeywordAll h4
  have hany : keywordCount "WHERE" queryArrayKeywordAny = 0 := by decide
  have hall : keywordCount "WHERE" queryArrayKeywordAll = 0 := by decide
  rw [hany] at g1 g2
  rw [hall] at g3 g4
  simp only [keywordCount] at g1 g2 g3 g4
  intro f hf
  simp only [filterFragments, List.mem_append] at hf
  rcases hf with (((hf | hf) | hf) | hf) | hf
  all_goals
    split at hf
    on_goal 2 => simp at hf
    rw [List.mem_singleton] at hf
    subst hf
    simp only [keywordCount, tableSchemaKeyword, tablePatternMatchingTarget,
      String.data_append, List.append_assoc, List.cons_append, List.nil_append]
    repeat rw [countChars_cons_ne _ _ _ _ (by simp)]
  · exact g1
  · exact g2
  · exact g3
  · exact g4
  · rw [countChars_append_sep _ _ _ _ _ (by simp), h5]
    simp [countChars_nil]

/-! ## The statement of the tables handler -/

set_option maxRecDepth 100000

theorem appendFragment_and (query fragment : String) :
    appendFragment query queryConcatKeywordAnd fragment
      = (query ++ " AND " ++ fragment, queryConcatKeywordAnd) := by
  simp only [appendFragment, queryConcatKeywordAnd, Prod.mk.injEq, and_true]
  apply String.ext
  simp [String.data_append]

theorem keywordCount_and_fold (frags : List String)
    (h : ∀ f ∈ frags, keywordCount "WHERE" f = 0) :
    ∀ query : String,
      keywordCount "WHERE" (frags.foldl (fun q f => q ++ " AND " ++ f) query)
        = keywordCount "WHERE" query := by
  induction frags with
  | nil => intro query; rfl
  | cons f rest ih =>
    intro query
    have hf := h f (by simp)
    have hstep : keywordCount "WHERE" (query ++ " AND " ++ f) = keywordCount "WHERE" query := by
      have h1 := keywordCount_appendFragment query queryConcatKeywordAnd f
      rw [appendFragment_and] at h1
      have h2 : keywordCount "WHERE" queryConcatKeywordAnd = 0 := by decide
      simp only at h1
      omega
    rw [List.foldl_cons, ih (fun g hg => h g (by simp [hg])), hstep]

theorem tablesStatement_eq_fold (d : ResourceData) :
    tablesStatement specHelpers d
      = (filterFragments d).foldl (fun q f => q ++ " AND " ++ f) tableQuery
          ++ " ORDER BY schemaname, tablename" := by
  have e1 : (d.schemas.length > 0) ↔ d.schemas ≠ [] := List.length_pos
  have e2 : (d.like_any_patterns.length > 0) ↔ d.like_any_patterns ≠ [] := List.length_pos
  have e3 : (d.like_all_patterns.length > 0) ↔ d.like_all_patterns ≠ [] := List.length_pos
  have e4 : (d.not_like_all_patterns.length > 0) ↔ d.not_like_all_patterns ≠ [] :=
    List.length_pos
  simp only [tablesStatement, specHelpers, Postgresql.applyEqualsAnyFilteringToQuery,
    Postgresql.applyOptionalPatternMatchingToQuery, filterFragments, e1, e2, e3, e4]
  by_cases h1 : d.schemas = [] <;> by_cases h2 : d.like_any_patterns = [] <;>
    by_cases h3 : d.like_all_patterns = [] <;> by_cases h4 : d.not_like_all_patterns = [] <;>
    by_cases h5 : d.regex_pattern = "" <;>
    simp [h1, h2, h3, h4, h5, appendFragment_and]

theorem filterFragments_length (d : ResourceData) :
    (filterFragments d).length = presentFilters d := by
  simp only [filterFragments, presentFilters, List.length_append]
  by_cases h1 : d.schemas = [] <;> by_cases h2 : d.like_any_patterns = [] <;>
    by_cases h3 : d.like_all_patterns = [] <;> by_cases h4 : d.not_like_all_patterns = [] <;>
    by_cases h5 : d.regex_pattern = "" <;>
    simp [h1, h2, h3, h4, h5]

/-- C4 as stated fails: with no filter present the composed statement holds
    one `WHERE` keyword, that of `tableQuery`, not zero. -/
theorem tablesStatement_no_filter_one_where :
    presentFilters (tablesInputs "db" [] [] [] [] [] "") = 0 ∧
    keywordCount "WHERE" (tablesStatement specHelpers (tablesInputs "db" [] [] [] [] [] "")) = 1 ∧
    keywordCount "WHERE" (tablesStatement specHelpers (tablesInputs "db" [] [] [] [] [] "")) ≠ 0 := by
  decide

/-- C4, amended: for filter values that do not contain the text WHERE, the
    composed statement holds exactly one `WHERE` keyword, that of the base
    statement, whether or not a filter is present; the statement is the base
    statement followed by the fragment of each present filter, every one of
    them joined with `AND`, followed by the `ORDER BY` clause. -/
theorem tablesStatement_where_once (d : ResourceData)
    (hvals : ∀ v ∈ filterValues d, keywordCount "WHERE" v = 0) :
    keywordCount "WHERE" (tablesStatement specHelpers d) = 1 ∧
    tablesStatement specHelpers d
      = (filterFragments d).foldl (fun q f => q ++ " AND " ++ f) tableQuery
          ++ " ORDER BY schemaname, tablename" ∧
    (filterFragments d).length = presentFilters d ∧
    (∀ f ∈ filterFragments d, keywordCount "WHERE" f = 0) ∧
    keywordCount "WHERE" tableQuery = 1 := by
  have hfr := keywordCount_filterFragments d hvals
  have hbase : keywordCount "WHERE" tableQuery = 1 := by decide
  refine ⟨?_, tablesStatement_eq_fold d, filterFragments_length d, hfr, hbase⟩
  have hfold := keywordCount_and_fold (filterFragments d) hfr tableQuery
  rw [tablesStatement_eq_fold d]
  simp only [keywordCount] at hfold hbase ⊢
  simp only [String.data_append, List.append_assoc, List.cons_append, List.nil_append]
  rw [countChars_append_sep _ _ _ _ _ (by simp), hfold, hbase]
  decide

/-- C4, amended, with all five filters present. -/
theorem tablesStatement_where_once_witness :
    keywordCount "WHERE" (tablesStatement specHelpers
      (tablesInputs "db" ["public"] [] ["a%"] ["%b"] ["tmp%"] "^t")) = 1 ∧
    tablesStatement specHelpers (tablesInputs "db" ["public"] [] ["a%"] ["%b"] ["tmp%"] "^t")
      = tableQuery ++ " AND schemaname = ANY (array['public'])" ++
        " AND tablename LIKE ANY (array['a%'])" ++ " AND tablename LIKE ALL (array['%b'])" ++
        " AND tablename NOT LIKE ALL (array['tmp%'])" ++ " AND tablename ~ '^t'" ++
        " ORDER BY schemaname, tablename" :=
  ⟨(tablesStatement_where_once
      (tablesInputs "db" ["public"] [] ["a%"] ["%b"] ["tmp%"] "^t") (by decide)).1,
   by decide⟩

/-- C5 fails on the code: the composed statement does not depend on
    `table_types`.  With `table_types = ["BASE TABLE"]` and no other filter it
    is the statement composed with `table_types` empty, while the identifier
    of the data source does change with `table_types`; and this holds for any
    pattern helper that does not read `table_types` itself. -/
theorem tablesStatement_ignores_table_types :
    tablesStatement specHelpers (tablesInputs "db" [] ["BASE TABLE"] [] [] [] "")
      = tablesStatement specHelpers (tablesInputs "db" [] [] [] [] [] "") ∧
    tablesStatement specHelpers (tablesInputs "db" [] ["BASE TABLE"] [] [] [] "")
      = tableQuery ++ " ORDER BY schemaname, tablename" ∧
    generateDataSourceTablesID (tablesInputs "db" [] ["BASE TABLE"] [] [] [] "") "db"
      ≠ generateDataSourceTablesID (tablesInputs "db" [] [] [] [] [] "") "db" ∧
    (∀ (d : ResourceData) (table_types : List String),
      tablesStatement specHelpers { d with table_types := table_types }
        = tablesStatement specHelpers d) ∧
    (∀ (H : FilterHelpers),
      (∀ (query target kw : String) (d : ResourceData) (table_types : List String),
        H.applyOptionalPatternMatchingToQuery query target kw
            { d with table_types := table_types }
          = H.applyOptionalPatternMatchingToQuery query target kw d) →
      ∀ (d : ResourceData) (table_types : List String),
        tablesStatement H { d with table_types := table_types } = tablesStatement H d) := by
  refine ⟨by decide, by decide, by decide, fun d table_types => rfl, ?_⟩
  intro H hH d table_types
  simp only [tablesStatement, hH]

/-- C6: when every filter input is empty and the filter helpers emit no
    fragment for an absent filter, the statement handed to `txn.Query` is
    `tableQuery` followed by ` ORDER BY schemaname, tablename`; it holds the
    exclusion of `pg_catalog` and `information_schema`, and it is the statement
    of the query effect in the trace of the handler. -/
theorem tablesStatement_unfiltered (H : FilterHelpers) (d : ResourceData)
    (hEq : ∀ (query kw column : String),
      H.applyEqualsAnyFilteringToQuery query kw column [] = (query, kw))
    (hPat : ∀ (query target kw : String) (d0 : ResourceData),
      d0.schemas = [] → d0.table_types = [] → d0.like_any_patterns = [] →
      d0.like_all_patterns = [] → d0.not_like_all_patterns = [] → d0.regex_pattern = "" →
      H.applyOptionalPatternMatchingToQuery query target kw d0 = (query, kw))
    (h1 : d.schemas = []) (h2 : d.table_types = []) (h3 : d.like_any_patterns = [])
    (h4 : d.like_all_patterns = []) (h5 : d.not_like_all_patterns = [])
    (h6 : d.regex_pattern = "") :
    tablesStatement H d = tableQuery ++ " ORDER BY schemaname, tablename" ∧
    containsText (tablesStatement H d)
      "WHERE schemaname NOT IN ('pg_catalog', 'information_schema')" = true ∧
    (∃ before : String, tablesStatement H d = before ++ " ORDER BY schemaname, tablename") ∧
    (∀ (Value : Type) (convertAssign : Value → Except GoError String) (db : DBConnection Value)
        (txn : Txn Value),
      db.startTransaction d.database = .ok txn →
      Effect.query (tableQuery ++ " ORDER BY schemaname, tablename") []
        ∈ (dataSourcePostgreSQLTablesRead H convertAssign db d).trace) := by
  have hst : tablesStatement H d = tableQuery ++ " ORDER BY schemaname, tablename" := by
    simp only [tablesStatement, h1, hEq, hPat _ _ _ d h1 h2 h3 h4 h5 h6]
  refine ⟨hst, ?_, ⟨tableQuery, hst⟩, ?_⟩
  · rw [hst]; decide
  · intro Value convertAssign db txn hstart
    cases hquery : txn.Query (tablesStatement H d) [] with
    | error e =>
      have hq2 := hquery
      rw [hst] at hq2
      simp [dataSourcePostgreSQLTablesRead, hstart, tablesReadTxn, hst, hq2]
    | ok cur =>
      rw [tablesRead_of_cursor H convertAssign db d txn cur hstart hquery, hst]
      simp

/-- C6 with the helpers as modelled from the spec and every filter input empty. -/
theorem tablesStatement_unfiltered_witness :
    tablesStatement specHelpers (tablesInputs "db" [] [] [] [] [] "")
      = tableQuery ++ " ORDER BY schemaname, tablename" ∧
    containsText (tablesStatement specHelpers (tablesInputs "db" [] [] [] [] [] ""))
      "WHERE schemaname NOT IN ('pg_catalog', 'information_schema')" = true :=
  ⟨(tablesStatement_unfiltered specHelpers (tablesInputs "db" [] [] [] [] [] "")
      (fun _ _ _ => rfl)
      (fun query target kw d0 _ _ g3 g4 g5 g6 => by
        simp [specHelpers, Postgresql.applyOptionalPatternMatchingToQuery, g3, g4, g5, g6])
      rfl rfl rfl rfl rfl rfl).1,
   (tablesStatement_unfiltered specHelpers (tablesInputs "db" [] [] [] [] [] "")
      (fun _ _ _ => rfl)
      (fun query target kw d0 _ _ g3 g4 g5 g6 => by
        simp [specHelpers, Postgresql.applyOptionalPatternMatchingToQuery, g3, g4, g5, g6])
      rfl rfl rfl rfl rfl rfl).2.1⟩

end Postgresql
